import Mathlib

/-!
Verification of the SitAlarm posture classification and calibration engine.

The Python sources are shallowly embedded here:
* machine floats are modelled as `ℚ` where the code only does field
  arithmetic and comparisons, and as `ℝ` where it calls `math.sqrt` /
  `math.acos` (the geometry of `head_ratio_detector.py`);
* mutable object state is passed explicitly (detector smoother state,
  reminder bookkeeping, calibration sample buffers, the daily-stats table);
* `None` becomes `Option`.
-/

namespace SitAlarm

/-! ### Constants from `services/head_ratio_detector.py` -/

/-- Source constant `DEFAULT_HEAD_RATIO_THRESHOLD = 0.15`. -/
def defaultHeadRatioThreshold : ℚ := 0.15

/-- Source constant `CALIBRATION_SAFETY_MARGIN = 0.30`. -/
def calibrationSafetyMargin : ℚ := 0.30

/-- Source constant `DEFAULT_HEAD_FORWARD_THRESHOLD = 0.28`. -/
def defaultHeadForwardThreshold : ℚ := 0.28

/-- Source constant `DEFAULT_HUNCHBACK_THRESHOLD_DEGREES = 14.0`. -/
def defaultHunchbackThresholdDegrees : ℚ := 14

/-! ### Calibration finalisation (`SitAlarmController._finalize_calibration`) -/

/-- Python `round(x, 4)`: round to four decimal places.  (Python uses
round-half-even on binary floats; on the rational model the half-way case
never arises for the values this program produces, so Mathlib `round` is
used.) -/
def round4 (q : ℚ) : ℚ := (round (q * 10000) : ℚ) / 10000

/-- Python `max(xs)` over a non-empty list (0 as an unused default for `[]`). -/
def listMax : List ℚ → ℚ
  | [] => 0
  | x :: xs => xs.foldl max x

/-- Python `min(xs)` over a non-empty list (0 as an unused default for `[]`). -/
def listMin : List ℚ → ℚ
  | [] => 0
  | x :: xs => xs.foldl min x

/-- Head-ratio half of `SitAlarmController._finalize_calibration`
(controller.py lines 461–476): midpoint of `max(correct)` and
`min(incorrect)` when the latter is larger, otherwise the safety-margin
fallback; rounded to 4 decimals. -/
def finalizeHeadRatioThreshold (correctRatios incorrectRatios : List ℚ) : ℚ :=
  let maxCorrect := listMax correctRatios
  let minIncorrect := listMin incorrectRatios
  if minIncorrect > maxCorrect then
    round4 ((maxCorrect + minIncorrect) / 2)
  else
    round4 (maxCorrect * (1 + calibrationSafetyMargin))

/-- Head-forward half of `SitAlarmController._finalize_calibration`
(controller.py lines 478–490): the threshold starts at `0.0` and the
two-branch rule only runs when both sample lists are non-empty. -/
def finalizeHeadForwardThreshold (correctHF incorrectHF : List ℚ) : ℚ :=
  if correctHF ≠ [] ∧ incorrectHF ≠ [] then
    let maxCorrect := listMax correctHF
    let minIncorrect := listMin incorrectHF
    if minIncorrect > maxCorrect then
      round4 ((maxCorrect + minIncorrect) / 2)
    else
      round4 (maxCorrect * (1 + calibrationSafetyMargin))
  else 0

/-! ### Threshold store (`SitAlarmController.apply_settings` and helpers) -/

/-- Python `str.lower()`, modelled character-wise over the string's data
(the detection-mode strings involved are ASCII or already-lowercase CJK). -/
def pyLower (s : String) : String := ⟨s.data.map Char.toLower⟩

/-- Python `str.strip()`: whitespace removed from both ends. -/
def pyStrip (s : String) : String :=
  ⟨((s.data.dropWhile Char.isWhitespace).reverse.dropWhile
      Char.isWhitespace).reverse⟩

/-- Static method `SitAlarmController._threshold_multiplier` (controller.py
lines 790–797).  Python `mode or "strict"` treats the empty string as falsy. -/
def thresholdMultiplier (mode : String) : ℚ :=
  let m := pyStrip (pyLower (if mode = "" then "strict" else mode))
  if m = "normal" then 1.1
  else if m = "loose" ∨ m = "宽松" then 1.2
  else 1.0

/-- Method `SitAlarmController._effective_head_ratio_threshold` (controller.py
lines 785–788). -/
def effectiveHeadRatioThreshold (threshold : ℚ) : ℚ :=
  if threshold > 0 then threshold else defaultHeadRatioThreshold

/-- Operative ratio threshold computed by `apply_settings` (controller.py
lines 209–211): `min(1.0, base * multiplier)`. -/
def appliedRatioThreshold (headRatioThresholdSetting : ℚ) (mode : String) : ℚ :=
  min 1 (effectiveHeadRatioThreshold headRatioThresholdSetting * thresholdMultiplier mode)

/-- Operative head-forward threshold computed by `apply_settings`
(controller.py lines 213–220): a calibrated value `> 0` is preferred,
otherwise the default constant, in both cases scaled and capped at 1. -/
def appliedHeadForwardThreshold (calibrated : ℚ) (mode : String) : ℚ :=
  if calibrated > 0 then min 1 (calibrated * thresholdMultiplier mode)
  else min 1 (defaultHeadForwardThreshold * thresholdMultiplier mode)

/-! ### Calibration sample capture (`SitAlarmController.capture_*`) -/

/-- The four in-memory calibration sample buffers of the controller
(`_calibration_ratios`, `_calibration_head_forward_ratios` and their
incorrect-posture counterparts; the image-path lists carry no numeric
content and are omitted). -/
structure CalibBuffers where
  correctRatios : List ℚ
  correctHeadForward : List ℚ
  incorrectRatios : List ℚ
  incorrectHeadForward : List ℚ
deriving DecidableEq

/-- Outcome reported by a capture call: `accepted` (sample appended),
`rejectedNoHead` (extractor returned no `head_ratio`; retry prompt), or
`rejectedPhase` (incorrect-phase capture before the correct phase is done). -/
inductive CaptureOutcome
  | accepted
  | rejectedNoHead
  | rejectedPhase
deriving DecidableEq

/-- Controller field `_required_calibration_samples = 3`. -/
def requiredCalibrationSamples : ℕ := 3

/-- Controller field `_required_incorrect_samples = 2`. -/
def requiredIncorrectSamples : ℕ := 2

/-- Method `SitAlarmController.capture_head_ratio_calibration_sample`
(controller.py lines 341–402) restricted to its buffer effect: the frame's
evaluation result enters as the `(head_ratio, head_forward_ratio)` pair; a
`None` head ratio rejects the capture without touching any buffer, otherwise
both correct-phase buffers are appended to (an undefined head-forward ratio
is padded with `0.0` to keep indices aligned). -/
def captureHeadRatioCalibrationSample (b : CalibBuffers)
    (headRatioMeasured headForwardMeasured : Option ℚ) :
    CalibBuffers × CaptureOutcome :=
  match headRatioMeasured with
  | none => (b, .rejectedNoHead)
  | some r =>
      ({ b with
          correctRatios := b.correctRatios ++ [r],
          correctHeadForward := b.correctHeadForward ++ [headForwardMeasured.getD 0] },
        .accepted)

/-- Method `SitAlarmController.capture_incorrect_posture_calibration_sample`
(controller.py lines 404–459) restricted to its buffer effect.  The phase
guard (`len(self._calibration_ratios) < self._required_calibration_samples`)
comes first; then a `None` head ratio rejects without mutation. -/
def captureIncorrectPostureCalibrationSample (b : CalibBuffers)
    (headRatioMeasured headForwardMeasured : Option ℚ) :
    CalibBuffers × CaptureOutcome :=
  if b.correctRatios.length < requiredCalibrationSamples then (b, .rejectedPhase)
  else
    match headRatioMeasured with
    | none => (b, .rejectedNoHead)
    | some r =>
        ({ b with
            incorrectRatios := b.incorrectRatios ++ [r],
            incorrectHeadForward := b.incorrectHeadForward ++ [headForwardMeasured.getD 0] },
          .accepted)

/-! ### Reminder debounce policy (`services/reminder_service.py`) -/

/-- State of `ReminderPolicy`: the cooldown (a `timedelta`, here in seconds)
and the `_last_sent` dictionary (modelled as a partial map from reason to
the last-sent timestamp; the code only ever gets and sets single keys). -/
structure ReminderPolicy where
  cooldownSeconds : ℤ
  lastSent : String → Option ℤ

/-- Constructor `ReminderPolicy.__init__`: `cooldown = timedelta(minutes=max(1, cooldown_minutes))`
and an empty `_last_sent` map. -/
def ReminderPolicy.init (cooldownMinutes : ℤ) : ReminderPolicy :=
  ⟨60 * max 1 cooldownMinutes, fun _ => none⟩

/-- The stamping loop of `should_notify`: every reason in the set gets its
last-sent time set to `now` (`self._last_sent[reason] = now`). -/
def stampAll (f : String → Option ℤ) (reasons : List String) (now : ℤ) :
    String → Option ℤ :=
  reasons.foldl (fun acc r => fun k => if k = r then some now else acc k) f

/-- Per-reason due test inside `should_notify`:
`last is None or (now - last) >= self.cooldown`. -/
def reasonDue (st : ReminderPolicy) (now : ℤ) (reason : String) : Bool :=
  match st.lastSent reason with
  | none => true
  | some last => decide (st.cooldownSeconds ≤ now - last)

/-- Method `ReminderPolicy.should_notify` (reminder_service.py lines 20–33):
returns the permit decision together with the updated `_last_sent` state. -/
def shouldNotify (st : ReminderPolicy) (reasons : List String) (now : ℤ) :
    Bool × ReminderPolicy :=
  if reasons.isEmpty then (false, st)
  else
    let due := reasons.any (reasonDue st now)
    if due then (true, { st with lastSent := stampAll st.lastSent reasons now })
    else (false, st)

/-! ### Reminder triggering (`SitAlarmController._trigger_reminders`) -/

/-- Controller state read and written by `_trigger_reminders`: the reminder
policy, `_consecutive_incorrect`, `_consecutive_incorrect_threshold` and
`_last_posture_status`. -/
structure TriggerState where
  policy : ReminderPolicy
  consecutiveIncorrect : ℕ
  consecutiveIncorrectThreshold : ℕ
  lastPostureStatus : Option String

/-- Method `SitAlarmController._trigger_reminders` (controller.py lines
705–745, the posture portion preceding the screen-time block).  The returned
`Bool` records whether `reminder_triggered` was emitted.  Python's
short-circuiting `transitioned or should_notify(...)` means `should_notify`
(and its stamping side effect) only runs when `transitioned` is false. -/
def triggerReminders (st : TriggerState) (status : String)
    (reasons : List String) (now : ℤ) : Bool × TriggerState :=
  if status = "unknown" then
    let transitioned := st.lastPostureStatus ≠ some "unknown"
    let dp : Bool × ReminderPolicy :=
      if transitioned then (true, st.policy)
      else shouldNotify st.policy ["detection_failed"] now
    (dp.1,
      { st with policy := dp.2, consecutiveIncorrect := 0,
                lastPostureStatus := some "unknown" })
  else if status = "incorrect" then
    let c := st.consecutiveIncorrect + 1
    if st.consecutiveIncorrectThreshold ≤ c then
      let transitioned := st.lastPostureStatus ≠ some "incorrect"
      let dp : Bool × ReminderPolicy :=
        if transitioned then (true, st.policy)
        else shouldNotify st.policy reasons now
      (dp.1,
        { st with policy := dp.2, consecutiveIncorrect := c,
                  lastPostureStatus := some "incorrect" })
    else
      (false, { st with consecutiveIncorrect := c,
                        lastPostureStatus := some "incorrect" })
  else
    (false, { st with consecutiveIncorrect := 0,
                      lastPostureStatus := some status })

/-! ### Daily statistics (`services/stats_service.py`, `services/storage.py`) -/

/-- The `daily_stats` table: day ↦ (correct_seconds, incorrect_seconds,
unknown_seconds).  Days are calendar ordinals; absent rows read as zeros,
matching `Storage.get_daily_stats`. -/
def emptyDailyStats : ℤ → ℤ × ℤ × ℤ := fun _ => (0, 0, 0)

/-- Method `Storage.increment_daily_stats` (storage.py lines 169–190): an
SQL upsert adding the three deltas to the addressed day's row. -/
def incrementDailyStats (stats : ℤ → ℤ × ℤ × ℤ) (day : ℤ)
    (correctDelta incorrectDelta unknownDelta : ℤ) : ℤ → ℤ × ℤ × ℤ :=
  fun d =>
    if d = day then
      ((stats day).1 + correctDelta, (stats day).2.1 + incorrectDelta,
        (stats day).2.2 + unknownDelta)
    else stats d

/-- Method `StatsService.record_detection` (stats_service.py lines 39–44):
clamp the interval at 0, then attribute it to the bucket named by `status`. -/
def recordDetection (stats : ℤ → ℤ × ℤ × ℤ) (day : ℤ) (status : String)
    (intervalSeconds : ℤ) : ℤ → ℤ × ℤ × ℤ :=
  let seconds := max 0 intervalSeconds
  incrementDailyStats stats day
    (if status = "correct" then seconds else 0)
    (if status = "incorrect" then seconds else 0)
    (if status = "unknown" then seconds else 0)

/-- Method `StatsService.get_day_summary` restricted to the three posture
buckets (screen-time seconds are queried from a separate table). -/
def getDaySummary (stats : ℤ → ℤ × ℤ × ℤ) (day : ℤ) : ℤ × ℤ × ℤ := stats day

/-! ### Geometry and classification (`services/head_ratio_detector.py`)

The detector's float arithmetic reaches `math.sqrt` and `math.acos`, so this
part of the embedding lives over `ℝ`. -/

/-- A face bounding box `(x, y, w, h)` in pixels. -/
abbrev FaceBoxM := ℤ × ℤ × ℤ × ℤ

/-- Static method `HeadRatioPostureDetector._face_area`:
`max(0, w) * max(0, h)`. -/
def faceArea (b : FaceBoxM) : ℤ := max 0 b.2.2.1 * max 0 b.2.2.2

/-- Python `max(faces, key=self._face_area)` for a non-empty list: the first
box of maximal area (Python `max` keeps the earlier element on key ties). -/
def pickLargestFace : List FaceBoxM → Option FaceBoxM
  | [] => none
  | f :: fs =>
      some (fs.foldl (fun best c => if faceArea best < faceArea c then c else best) f)

/-- Static method `HeadRatioPostureDetector.calculate_head_ratio`
(head_ratio_detector.py lines 346–355): face-box area over frame area, with
a zero guard on the frame dimensions. -/
noncomputable def calculateHeadRatio (b : FaceBoxM) (frameWidth frameHeight : ℤ) : ℝ :=
  if frameWidth ≤ 0 ∨ frameHeight ≤ 0 then 0
  else (faceArea b : ℝ) / ((frameWidth : ℝ) * (frameHeight : ℝ))

/-- One MediaPipe landmark as the detector reads it: normalised `x`, `y`,
depth `z` and a `visibility` score (`_vis` defaults a missing value to 0;
the field here is that read value). -/
structure Landmark where
  x : ℝ
  y : ℝ
  z : ℝ
  visibility : ℝ

/-- The pose-estimator output for one frame: image landmarks indexed by the
MediaPipe landmark ids, and optional world (3-D) landmarks. -/
structure PoseInput where
  image : ℕ → Landmark
  world : Option (ℕ → Landmark)

/-- Everything `evaluate_frame` reads from a captured frame: its pixel
dimensions, the face detector's boxes, and the pose estimator's landmarks
(`none` when no pose was detected). -/
structure FrameInput where
  frameWidth : ℤ
  frameHeight : ℤ
  faces : List FaceBoxM
  pose : Option PoseInput

/-- MediaPipe landmark ids used by the detector
(`_pose_landmark_ids` in `_init_pose_detector`). -/
def noseId : ℕ := 0
def leftEarId : ℕ := 7
def rightEarId : ℕ := 8
def leftShoulderId : ℕ := 11
def rightShoulderId : ℕ := 12
def leftHipId : ℕ := 23
def rightHipId : ℕ := 24

/-- Static method `HeadRatioPostureDetector._ema` (head_ratio_detector.py
lines 657–661): the first observation passes through, afterwards
`alpha * current + (1 - alpha) * previous`. -/
def ema (previous : Option ℝ) (current : ℝ) (alpha : ℝ) : ℝ :=
  match previous with
  | none => current
  | some p => alpha * current + (1 - alpha) * p

/-- Repeated application of `_ema` to a stream of observations, starting
from a given previous value and threading the smoothed value as the next
previous value (exactly how `_evaluate_pose` uses `_smoothed_head_forward`). -/
def emaRun (alpha : ℝ) : Option ℝ → List ℝ → List ℝ
  | _, [] => []
  | prev, c :: cs =>
      let s := ema prev c alpha
      s :: emaRun alpha (some s) cs

/-- Static method `HeadRatioPostureDetector._dist3`. -/
noncomputable def dist3 (ax ay az bx b_y bz : ℝ) : ℝ :=
  Real.sqrt ((ax - bx) ^ 2 + (ay - b_y) ^ 2 + (az - bz) ^ 2)

/-- Mean of a list of reals (Python `sum(xs) / len(xs)`, applied to
non-empty lists only). -/
noncomputable def listMeanR (l : List ℝ) : ℝ := l.sum / l.length

/-- The head landmarks `("nose", "left_ear", "right_ear")` iterated over in
`_head_forward_ratio`. -/
def headLandmarkIds : List ℕ := [noseId, leftEarId, rightEarId]

/-- Method `HeadRatioPostureDetector._head_forward_ratio`
(head_ratio_detector.py lines 583–622): the 3-D world-landmark offset when a
wide-enough world shoulder span and at least one visible head landmark
exist, else the 2-D horizontal-offset fallback, else `None`. -/
noncomputable def headForwardRatio (img : ℕ → Landmark)
    (world : Option (ℕ → Landmark)) : Option ℝ :=
  let leftShoulder := img leftShoulderId
  let rightShoulder := img rightShoulderId
  let threeD : Option ℝ :=
    match world with
    | none => none
    | some w =>
        let lw := w leftShoulderId
        let rw := w rightShoulderId
        let shoulderWidthWorld := dist3 lw.x lw.y lw.z rw.x rw.y rw.z
        if shoulderWidthWorld > 1e-6 then
          let headZ :=
            (headLandmarkIds.filter fun i => (img i).visibility ≥ 0.35).map
              fun i => (w i).z
          if headZ.isEmpty then none
          else some (((lw.z + rw.z) / 2 - listMeanR headZ) / shoulderWidthWorld)
        else none
  match threeD with
  | some v => some v
  | none =>
      let visibleX :=
        (headLandmarkIds.filter fun i => (img i).visibility ≥ 0.35).map
          fun i => (img i).x
      let shoulderWidth2d := |leftShoulder.x - rightShoulder.x|
      if shoulderWidth2d ≤ 1e-6 ∨ visibleX.isEmpty then none
      else
        some (|listMeanR visibleX - (leftShoulder.x + rightShoulder.x) / 2| /
          shoulderWidth2d)

/-- Method `HeadRatioPostureDetector._ear_span_ratio` (head_ratio_detector.py
lines 624–630). -/
noncomputable def earSpanRatio (img : ℕ → Landmark) : Option ℝ :=
  let le := img leftEarId
  let re := img rightEarId
  if le.visibility < 0.35 ∨ re.visibility < 0.35 then none
  else some |le.x - re.x|

/-- Static method `HeadRatioPostureDetector._trunk_angle_degrees`
(head_ratio_detector.py lines 632–644): `math.hypot` norm with a `1e-6`
guard, cosine clamped to `[-1, 1]`, `math.degrees(math.acos(...))`. -/
noncomputable def trunkAngleDegrees (shoulderCenter hipCenter : ℝ × ℝ) : Option ℝ :=
  let dx := shoulderCenter.1 - hipCenter.1
  let dy := shoulderCenter.2 - hipCenter.2
  let norm := Real.sqrt (dx ^ 2 + dy ^ 2)
  if norm ≤ 1e-6 then none
  else
    let cosTheta := max (-1) (min 1 ((-dy) / norm))
    some (Real.arccos cosTheta * 180 / Real.pi)

/-- Configuration and smoother state of a `HeadRatioPostureDetector`
instance (the fields read or written by `evaluate_frame`). -/
structure Detector where
  ratioThreshold : ℝ
  poseVisibilityThreshold : ℝ
  hipVisibilityThreshold : ℝ
  headForwardThreshold : ℝ
  hunchbackThresholdDegrees : ℝ
  earSpanTooCloseThreshold : ℝ
  cameraAngleMode : String
  emaAlpha : ℝ
  smoothedHeadForward : Option ℝ
  smoothedTrunkAngle : Option ℝ

/-- The pose-level verdict produced by `_evaluate_pose`: its status, its
reason list, and the `head_too_close_proxy` debug flag that `evaluate_frame`
reads back (`False` when pose detection failed, since the key is absent). -/
structure PoseEval where
  poseStatus : String
  poseReasons : List String
  headTooCloseProxy : Bool

/-- Method `HeadRatioPostureDetector._evaluate_pose` (head_ratio_detector.py
lines 434–576), over the pose input (`none` models every no-landmark early
return).  Returns the verdict together with the detector whose smoother
state was updated. -/
noncomputable def evaluatePose (d : Detector) (pose : Option PoseInput) :
    PoseEval × Detector :=
  match pose with
  | none => (⟨"unknown", [], false⟩, d)
  | some p =>
      let leftShoulder := p.image leftShoulderId
      let rightShoulder := p.image rightShoulderId
      let leftHip := p.image leftHipId
      let rightHip := p.image rightHipId
      let shoulderVisibility := (leftShoulder.visibility + rightShoulder.visibility) / 2
      let hipVisibility := (leftHip.visibility + rightHip.visibility) / 2
      let span := earSpanRatio p.image
      let proxy : Bool :=
        match span with
        | none => false
        | some s => if s ≥ d.earSpanTooCloseThreshold then true else false
      if shoulderVisibility < d.poseVisibilityThreshold then
        (⟨"unknown", [], proxy⟩, d)
      else
        match headForwardRatio p.image p.world with
        | none => (⟨"unknown", [], proxy⟩, d)
        | some hfRaw =>
            let hf := ema d.smoothedHeadForward hfRaw d.emaAlpha
            let d1 := { d with smoothedHeadForward := some hf }
            let upperBodyMode :=
              d.cameraAngleMode = "upper_body" ∨ hipVisibility < d.hipVisibilityThreshold
            let trunkStep : Option ℝ × Detector :=
              if ¬ upperBodyMode ∧ hipVisibility ≥ d.hipVisibilityThreshold then
                let shoulderCenter :=
                  ((leftShoulder.x + rightShoulder.x) / 2,
                    (leftShoulder.y + rightShoulder.y) / 2)
                let hipCenter :=
                  ((leftHip.x + rightHip.x) / 2, (leftHip.y + rightHip.y) / 2)
                match trunkAngleDegrees shoulderCenter hipCenter with
                | none => (none, d1)
                | some raw =>
                    let t := ema d1.smoothedTrunkAngle raw d.emaAlpha
                    (some t, { d1 with smoothedTrunkAngle := some t })
              else (none, d1)
            let trunkAngle := trunkStep.1
            let d2 := trunkStep.2
            let effectiveHeadForwardThreshold :=
              if upperBodyMode then d.headForwardThreshold * 1.15
              else d.headForwardThreshold
            let reasons :=
              (if hf ≥ effectiveHeadForwardThreshold then ["head_forward"] else []) ++
                (match trunkAngle with
                  | none => []
                  | some t =>
                      if t ≥ d.hunchbackThresholdDegrees then ["hunchback"] else [])
            let status := if reasons.isEmpty then "correct" else "incorrect"
            (⟨status, reasons, proxy⟩, d2)

/-- The classification result of `evaluate_frame` (fields of
`HeadRatioResult` that carry the verdict). -/
structure FrameEval where
  status : String
  reasons : List String
  headRatioMeasured : Option ℝ
  faceBox : Option FaceBoxM
  poseStatus : String
  distanceStatus : String

/-- Method `HeadRatioPostureDetector.evaluate_frame` (head_ratio_detector.py
lines 278–322): the largest face box gives `head_ratio` and the distance
verdict; `_evaluate_pose` gives the pose verdict; the ear-span proxy stands
in for a missing face box; reasons and the final status are combined exactly
as in the source. -/
noncomputable def evaluateFrame (d : Detector) (f : FrameInput) :
    FrameEval × Detector :=
  let faceBox := pickLargestFace f.faces
  let headRatioMeasured : Option ℝ :=
    match faceBox with
    | some b => some (calculateHeadRatio b f.frameWidth f.frameHeight)
    | none => none
  let distStep : Bool × String :=
    match headRatioMeasured with
    | some r => if r ≥ d.ratioThreshold then (true, "too_close") else (false, "normal")
    | none => (false, "unknown")
  let peStep := evaluatePose d f.pose
  let pe := peStep.1
  let d1 := peStep.2
  let tooCloseStep : Bool × String :=
    if headRatioMeasured.isNone && pe.headTooCloseProxy then (true, "too_close_proxy")
    else distStep
  let reasons := pe.poseReasons ++ (if tooCloseStep.1 then ["head_too_close"] else [])
  let status :=
    if ¬ reasons.isEmpty then "incorrect"
    else if pe.poseStatus = "correct" ∨ tooCloseStep.2 = "normal" then "correct"
    else "unknown"
  (⟨status, reasons, headRatioMeasured, faceBox, pe.poseStatus, tooCloseStep.2⟩, d1)

/-! ### Concrete test fixtures used by the counterexamples and witnesses -/

/-- A landmark at frame centre with visibility 0.10 (below every visibility
threshold in the detector). -/
noncomputable def testLandmarkLow : Landmark := ⟨0.5, 0.5, 0, 0.10⟩

/-- A detected pose whose every landmark has visibility 0.10; no world
landmarks. -/
noncomputable def lowVisPose : PoseInput := ⟨fun _ => testLandmarkLow, none⟩

/-- A 100×100 frame with a face box covering the whole frame
(`head_ratio = 1.0`) and the low-visibility pose. -/
noncomputable def bigFaceFrame : FrameInput := ⟨100, 100, [(0, 0, 100, 100)], some lowVisPose⟩

/-- The same frame with no face detected. -/
noncomputable def noFaceFrame : FrameInput := ⟨100, 100, [], some lowVisPose⟩

/-- A detector configured with the calibrated ratio threshold 0.255 from the
spec scenario and otherwise the source defaults, with fresh smoother
state. -/
noncomputable def testDetector : Detector :=
  ⟨0.255, 0.35, 0.25, 0.28, 14, 0.19, "upper_body", 0.25, none, none⟩

end SitAlarm

namespace SitAlarm

/-! ### Calibration finalisation theorems -/

/-- C1: calibration finalize computes the head-ratio threshold by the
two-branch rule — midpoint of `max(correct)` and `min(incorrect)` when the
latter is larger, otherwise `max(correct) * 1.30` — rounded to 4 decimals;
and the spec scenario `[0.18, 0.20, 0.19]` versus `[0.31, 0.34]` yields
`0.255`. -/
theorem finalize_head_ratio_two_branch (correctRatios incorrectRatios : List ℚ)
    (_hc : correctRatios ≠ []) (_hi : incorrectRatios ≠ []) :
    (finalizeHeadRatioThreshold correctRatios incorrectRatios =
      if listMin incorrectRatios > listMax correctRatios then
        round4 ((listMax correctRatios + listMin incorrectRatios) / 2)
      else round4 (listMax correctRatios * 1.30))
    ∧ finalizeHeadRatioThreshold [0.18, 0.20, 0.19] [0.31, 0.34] = 0.255 := by
  constructor
  · unfold finalizeHeadRatioThreshold
    norm_num [calibrationSafetyMargin]
  · norm_num [finalizeHeadRatioThreshold, listMax, listMin, max_def, min_def,
      round4, round_ofNat, calibrationSafetyMargin]

/-- Witness for C1: the theorem applied to the spec's concrete sample
lists. -/
theorem finalize_head_ratio_two_branch_witness :
    finalizeHeadRatioThreshold [0.18, 0.20, 0.19] [0.31, 0.34] = 0.255 :=
  (finalize_head_ratio_two_branch [0.18, 0.20, 0.19] [0.31, 0.34]
    (by simp) (by simp)).2

/-- C4 theorem: the head-forward two-branch rule runs only when both
head-forward sample lists are non-empty; when either is empty the persisted
head-forward threshold stays 0, and at runtime a calibrated value of 0 makes
`apply_settings` fall back to the default constant
`DEFAULT_HEAD_FORWARD_THRESHOLD`. -/
theorem finalize_head_forward_guard (cHF iHF : List ℚ) (mode : String) :
    (cHF ≠ [] → iHF ≠ [] →
      finalizeHeadForwardThreshold cHF iHF =
        (if listMin iHF > listMax cHF then round4 ((listMax cHF + listMin iHF) / 2)
          else round4 (listMax cHF * 1.30)))
    ∧ ((cHF = [] ∨ iHF = []) → finalizeHeadForwardThreshold cHF iHF = 0)
    ∧ appliedHeadForwardThreshold 0 mode =
        min 1 (defaultHeadForwardThreshold * thresholdMultiplier mode) := by
  refine ⟨?_, ?_, ?_⟩
  · intro hcne hine
    unfold finalizeHeadForwardThreshold
    rw [if_pos ⟨hcne, hine⟩]
    norm_num [calibrationSafetyMargin]
  · intro h
    unfold finalizeHeadForwardThreshold
    rw [if_neg (by tauto)]
  · unfold appliedHeadForwardThreshold
    rw [if_neg (by norm_num)]

/-- Witness for C4: a missing incorrect-sample list leaves the head-forward
threshold at 0 and the runtime threshold at the scaled default; non-empty
lists get the two-branch rule. -/
theorem finalize_head_forward_guard_witness :
    finalizeHeadForwardThreshold [0.1] [] = 0 ∧
    finalizeHeadForwardThreshold [0.18, 0.22] [0.30] = 0.26 ∧
    appliedHeadForwardThreshold 0 "strict" = 0.28 := by
  refine ⟨(finalize_head_forward_guard [0.1] [] "strict").2.1 (Or.inr rfl), ?_, ?_⟩
  · rw [(finalize_head_forward_guard [0.18, 0.22] [0.30] "strict").1
      (by simp) (by simp)]
    norm_num [listMax, listMin, max_def, min_def, round4, round_ofNat]
  · rw [(finalize_head_forward_guard [0.1] [] "strict").2.2]
    norm_num +decide [defaultHeadForwardThreshold, thresholdMultiplier, min_def]

/-! ### Threshold store theorems -/

/-- C3 counterexample: an unrecognized detection-mode string gets the strict
multiplier 1.0, not the normal multiplier 1.1 claimed by the spec; with a
calibrated base of 0.20 the operative ratio threshold comes out 0.20, not
0.22. -/
theorem unrecognized_mode_strict_counterexample :
    thresholdMultiplier "fancy" = 1 ∧ thresholdMultiplier "fancy" ≠ 1.1 ∧
    appliedRatioThreshold 0.20 "fancy" = 0.20 ∧
    appliedRatioThreshold 0.20 "fancy" ≠ min 1 (0.20 * 1.1) := by
  refine ⟨?_, ?_, ?_, ?_⟩ <;>
    norm_num +decide [thresholdMultiplier, appliedRatioThreshold,
      effectiveHeadRatioThreshold, min_def]

/-- C3 as amended: the operative ratio threshold is
`min(1.0, calibrated_base * mode_multiplier)` with multipliers strict = 1.0,
normal = 1.1, loose = 1.2 matched case-insensitively, and an unrecognized
mode defaulting to the strict multiplier 1.0; mode "loose" with base 0.20
gives 0.24. -/
theorem applied_ratio_threshold_spec (mode : String) (base : ℚ) (hbase : 0 < base) :
    appliedRatioThreshold base mode = min 1 (base * thresholdMultiplier mode)
    ∧ thresholdMultiplier "strict" = 1
    ∧ thresholdMultiplier "Normal" = 1.1
    ∧ thresholdMultiplier "LOOSE" = 1.2
    ∧ thresholdMultiplier "off-the-menu" = 1
    ∧ appliedRatioThreshold 0.20 "loose" = 0.24 := by
  refine ⟨?_, ?_, ?_, ?_, ?_, ?_⟩
  · unfold appliedRatioThreshold effectiveHeadRatioThreshold
    rw [if_pos hbase]
  all_goals
    norm_num +decide [thresholdMultiplier, appliedRatioThreshold,
      effectiveHeadRatioThreshold, min_def]

/-- Witness for the amended C3 at the spec's scenario. -/
theorem applied_ratio_threshold_spec_witness :
    appliedRatioThreshold 0.20 "loose" = min 1 (0.20 * thresholdMultiplier "loose") ∧
    appliedRatioThreshold 0.20 "loose" = 0.24 :=
  ⟨(applied_ratio_threshold_spec "loose" 0.20 (by norm_num)).1,
    (applied_ratio_threshold_spec "loose" 0.20 (by norm_num)).2.2.2.2.2⟩

/-! ### Calibration capture theorems -/

/-- C7: a calibration capture (correct or incorrect phase) appends to its
sample lists exactly when the extractor returned a defined head ratio; an
undefined head ratio is rejected with the retry outcome and leaves every
buffer untouched, and an accepted sample extends the lists without touching
already-accepted entries. -/
theorem calibration_capture_atomic (b : CalibBuffers) (hf : Option ℚ) (r : ℚ) :
    (captureHeadRatioCalibrationSample b none hf = (b, .rejectedNoHead))
    ∧ ((captureHeadRatioCalibrationSample b (some r) hf).2 = .accepted
        ∧ (captureHeadRatioCalibrationSample b (some r) hf).1.correctRatios
            = b.correctRatios ++ [r]
        ∧ (captureHeadRatioCalibrationSample b (some r) hf).1.correctHeadForward
            = b.correctHeadForward ++ [hf.getD 0]
        ∧ (captureHeadRatioCalibrationSample b (some r) hf).1.incorrectRatios
            = b.incorrectRatios
        ∧ (captureHeadRatioCalibrationSample b (some r) hf).1.incorrectHeadForward
            = b.incorrectHeadForward)
    ∧ (requiredCalibrationSamples ≤ b.correctRatios.length →
        captureIncorrectPostureCalibrationSample b none hf = (b, .rejectedNoHead))
    ∧ (requiredCalibrationSamples ≤ b.correctRatios.length →
        (captureIncorrectPostureCalibrationSample b (some r) hf).2 = .accepted
        ∧ (captureIncorrectPostureCalibrationSample b (some r) hf).1.incorrectRatios
            = b.incorrectRatios ++ [r]
        ∧ (captureIncorrectPostureCalibrationSample b (some r) hf).1.incorrectHeadForward
            = b.incorrectHeadForward ++ [hf.getD 0]
        ∧ (captureIncorrectPostureCalibrationSample b (some r) hf).1.correctRatios
            = b.correctRatios
        ∧ (captureIncorrectPostureCalibrationSample b (some r) hf).1.correctHeadForward
            = b.correctHeadForward)
    ∧ (b.correctRatios.length < requiredCalibrationSamples →
        captureIncorrectPostureCalibrationSample b (some r) hf = (b, .rejectedPhase)) := by
  refine ⟨rfl, ⟨rfl, rfl, rfl, rfl, rfl⟩, ?_, ?_, ?_⟩
  · intro h
    unfold captureIncorrectPostureCalibrationSample
    rw [if_neg (Nat.not_lt.mpr h)]
  · intro h
    unfold captureIncorrectPostureCalibrationSample
    rw [if_neg (Nat.not_lt.mpr h)]
    exact ⟨rfl, rfl, rfl, rfl, rfl⟩
  · intro h
    unfold captureIncorrectPostureCalibrationSample
    rw [if_pos h]

/-- Witness for C7: rejection leaves a concrete three-sample buffer intact
and acceptance appends. -/
theorem calibration_capture_atomic_witness :
    captureHeadRatioCalibrationSample ⟨[0.18, 0.2], [0.1, 0.1], [], []⟩ none (some 0.3)
      = (⟨[0.18, 0.2], [0.1, 0.1], [], []⟩, .rejectedNoHead)
    ∧ captureIncorrectPostureCalibrationSample ⟨[0.18, 0.2, 0.19], [0, 0, 0], [], []⟩
        none none
      = (⟨[0.18, 0.2, 0.19], [0, 0, 0], [], []⟩, .rejectedNoHead)
    ∧ (captureIncorrectPostureCalibrationSample ⟨[0.18, 0.2, 0.19], [0, 0, 0], [], []⟩
        (some 0.31) none).1.incorrectRatios = [0.31] :=
  ⟨(calibration_capture_atomic ⟨[0.18, 0.2], [0.1, 0.1], [], []⟩ (some 0.3) 0.31).1,
    (calibration_capture_atomic ⟨[0.18, 0.2, 0.19], [0, 0, 0], [], []⟩ none 0.31).2.2.1
      (by decide),
    by
      rw [(calibration_capture_atomic ⟨[0.18, 0.2, 0.19], [0, 0, 0], [], []⟩ none
        0.31).2.2.2.1 (by decide) |>.2.1]
      rfl⟩

/-! ### Daily statistics theorems -/

/-- Iterating `record_detection(day, "correct", s)` adds `n * s` to the
day's correct bucket and leaves the other two buckets of that day alone. -/
theorem recordDetection_correct_iterate (day s : ℤ) (hs : 0 ≤ s) (n : ℕ)
    (st : ℤ → ℤ × ℤ × ℤ) :
    ((fun t => recordDetection t day "correct" s)^[n]) st day
      = ((st day).1 + n * s, (st day).2.1, (st day).2.2) := by
  induction n generalizing st with
  | zero => simp
  | succ k ih =>
      have hstep : recordDetection st day "correct" s day
          = ((st day).1 + s, (st day).2.1, (st day).2.2) := by
        simp [recordDetection, incrementDailyStats, max_eq_right hs]
      rw [Function.iterate_succ_apply, ih, hstep]
      simp only [Prod.mk.injEq]
      push_cast
      ring_nf
      trivial

/-- C9: `record_detection` attributes the clamped interval to exactly the
bucket named by its status, leaves the other two buckets and other days
unchanged, and `n` recordings of `s` correct seconds starting from an empty
table give a day summary with `n * s` correct seconds and zero elsewhere. -/
theorem record_detection_one_bucket (stats : ℤ → ℤ × ℤ × ℤ) (day d2 s : ℤ)
    (n : ℕ) (hs : 0 ≤ s) :
    (recordDetection stats day "correct" s day
        = ((stats day).1 + s, (stats day).2.1, (stats day).2.2))
    ∧ (recordDetection stats day "incorrect" s day
        = ((stats day).1, (stats day).2.1 + s, (stats day).2.2))
    ∧ (recordDetection stats day "unknown" s day
        = ((stats day).1, (stats day).2.1, (stats day).2.2 + s))
    ∧ (d2 ≠ day → ∀ status, recordDetection stats day status s d2 = stats d2)
    ∧ getDaySummary (((fun t => recordDetection t day "correct" s)^[n]) emptyDailyStats) day
        = (n * s, 0, 0) := by
  refine ⟨?_, ?_, ?_, ?_, ?_⟩
  · simp [recordDetection, incrementDailyStats, max_eq_right hs]
  · simp [recordDetection, incrementDailyStats, max_eq_right hs]
  · simp [recordDetection, incrementDailyStats, max_eq_right hs]
  · intro hne status
    simp [recordDetection, incrementDailyStats, hne]
  · rw [getDaySummary, recordDetection_correct_iterate day s hs n emptyDailyStats]
    simp [emptyDailyStats]

/-- Witness for C9: two recordings of 30 correct seconds give a 60-second
correct bucket. -/
theorem record_detection_one_bucket_witness :
    getDaySummary (((fun t => recordDetection t 0 "correct" 30)^[2]) emptyDailyStats) 0
      = (60, 0, 0) := by
  have h := (record_detection_one_bucket emptyDailyStats 0 1 30 2 (by decide)).2.2.2.2
  rw [h]
  norm_num

/-! ### Reminder debounce theorems -/

/-- Stamping a reason set leaves every other reason's last-sent time
unchanged. -/
theorem stampAll_of_not_mem :
    ∀ (reasons : List String) (f : String → Option ℤ) (now : ℤ) (r : String),
      r ∉ reasons → stampAll f reasons now r = f r
  | [], _, _, _, _ => rfl
  | a :: rs, f, now, r, h => by
      show stampAll (fun k => if k = a then some now else f k) rs now r = f r
      rw [stampAll_of_not_mem rs _ now r fun hm => h (List.mem_cons_of_mem a hm)]
      exact if_neg fun hra => h (by rw [hra]; exact List.mem_cons_self a rs)

/-- Stamping a reason set sets every member's last-sent time to `now`. -/
theorem stampAll_of_mem :
    ∀ (reasons : List String) (f : String → Option ℤ) (now : ℤ) (r : String),
      r ∈ reasons → stampAll f reasons now r = some now
  | [], _, _, _, h => absurd h (List.not_mem_nil _)
  | a :: rs, f, now, r, h => by
      show stampAll (fun k => if k = a then some now else f k) rs now r = some now
      by_cases hm : r ∈ rs
      · exact stampAll_of_mem rs _ now r hm
      · have hra : r = a := by
          rcases List.mem_cons.mp h with h1 | h2
          · exact h1
          · exact absurd h2 hm
        rw [stampAll_of_not_mem rs _ now r hm]
        simp [hra]

/-- The per-reason due test holds exactly when the reason has never fired or
fired at least a cooldown ago. -/
theorem reasonDue_eq_true_iff (st : ReminderPolicy) (now : ℤ) (x : String) :
    reasonDue st now x = true ↔
      st.lastSent x = none ∨
        ∃ t, st.lastSent x = some t ∧ st.cooldownSeconds ≤ now - t := by
  unfold reasonDue
  cases hx : st.lastSent x with
  | none => simp
  | some t => simp [hx]

/-- The permit bit of `should_notify` on a non-empty reason set is the
any-reason-due test. -/
theorem shouldNotify_fst (st : ReminderPolicy) (reasons : List String) (now : ℤ)
    (hne : reasons ≠ []) :
    (shouldNotify st reasons now).1 = reasons.any (reasonDue st now) := by
  cases reasons with
  | nil => exact absurd rfl hne
  | cons a rs =>
      by_cases h : (a :: rs).any (reasonDue st now) <;> simp [shouldNotify, h]

/-- On permit, `should_notify` replaces the last-sent map by the stamped
map. -/
theorem shouldNotify_snd_of_due (st : ReminderPolicy) (reasons : List String)
    (now : ℤ) (hdue : reasons.any (reasonDue st now) = true) :
    (shouldNotify st reasons now).2
      = { st with lastSent := stampAll st.lastSent reasons now } := by
  cases reasons with
  | nil => simp at hdue
  | cons a rs => simp [shouldNotify, hdue]

/-- C5: on a non-empty reason set, `should_notify` permits exactly when some
reason has no recorded last-sent time or one at least a cooldown before
`now`; on permit it stamps every reason in the set to `now`; and the same
single reason fired twice within the cooldown without a transition yields
exactly one `True`. -/
theorem should_notify_cooldown (st : ReminderPolicy) (reasons : List String)
    (now now2 : ℤ) (r : String) (hne : reasons ≠ []) :
    ((shouldNotify st reasons now).1 = true ↔
      ∃ x ∈ reasons, st.lastSent x = none ∨
        ∃ t, st.lastSent x = some t ∧ st.cooldownSeconds ≤ now - t)
    ∧ ((shouldNotify st reasons now).1 = true →
      ∀ x ∈ reasons, (shouldNotify st reasons now).2.lastSent x = some now)
    ∧ (st.lastSent r = none → now2 - now < st.cooldownSeconds →
      (shouldNotify st [r] now).1 = true ∧
      (shouldNotify (shouldNotify st [r] now).2 [r] now2).1 = false) := by
  refine ⟨?_, ?_, ?_⟩
  · rw [shouldNotify_fst st reasons now hne, List.any_eq_true]
    simp only [reasonDue_eq_true_iff]
  · intro hperm x hx
    have hdue : reasons.any (reasonDue st now) = true := by
      rw [shouldNotify_fst st reasons now hne] at hperm
      exact hperm
    rw [shouldNotify_snd_of_due st reasons now hdue]
    exact stampAll_of_mem reasons st.lastSent now x hx
  · intro hnone hwin
    have hdue1 : [r].any (reasonDue st now) = true := by
      simp [reasonDue, hnone]
    have hfst1 : (shouldNotify st [r] now).1 = true := by
      rw [shouldNotify_fst st [r] now (by simp)]
      exact hdue1
    refine ⟨hfst1, ?_⟩
    rw [shouldNotify_snd_of_due st [r] now hdue1]
    rw [shouldNotify_fst _ [r] now2 (by simp)]
    have hstamp : stampAll st.lastSent [r] now r = some now :=
      stampAll_of_mem [r] st.lastSent now r (List.mem_cons_self r [])
    simp only [List.any_cons, List.any_nil, Bool.or_false]
    unfold reasonDue
    simp only [hstamp]
    simp only [decide_eq_true_eq, decide_eq_false_iff_not]
    omega

/-- Witness for C5: with a 5-minute cooldown, an unseen reason fires at time
0 and is then suppressed 100 seconds later. -/
theorem should_notify_cooldown_witness :
    (shouldNotify (ReminderPolicy.init 5) ["head_forward"] 0).1 = true ∧
    (shouldNotify (shouldNotify (ReminderPolicy.init 5) ["head_forward"] 0).2
      ["head_forward"] 100).1 = false :=
  (should_notify_cooldown (ReminderPolicy.init 5) ["head_forward"] 0 100
    "head_forward" (by simp)).2.2 rfl (by decide)

/-! ### Reminder triggering theorems -/

/-- C6: a detection cycle that transitions into `incorrect` (or into the
no-landmark `unknown`/`detection_failed` case) from a different previous
status emits a reminder whenever the consecutive-incorrect gate is met,
regardless of cooldown state, and any correct or unknown cycle resets the
consecutive-incorrect counter to zero. -/
theorem trigger_reminders_transition (st : TriggerState) (status : String)
    (reasons : List String) (now : ℤ) :
    (status = "incorrect" → st.lastPostureStatus ≠ some "incorrect" →
      st.consecutiveIncorrectThreshold ≤ st.consecutiveIncorrect + 1 →
      (triggerReminders st status reasons now).1 = true)
    ∧ (status = "unknown" → st.lastPostureStatus ≠ some "unknown" →
      (triggerReminders st status reasons now).1 = true)
    ∧ ((status = "correct" ∨ status = "unknown") →
      (triggerReminders st status reasons now).2.consecutiveIncorrect = 0) := by
  refine ⟨?_, ?_, ?_⟩
  · intro h1 h2 h3
    subst h1
    unfold triggerReminders
    rw [if_neg (by decide : ¬("incorrect" = "unknown"))]
    rw [if_pos rfl, if_pos h3]
    show (if st.lastPostureStatus ≠ some "incorrect" then (true, st.policy)
        else shouldNotify st.policy reasons now).1 = true
    rw [if_pos h2]
  · intro h1 h2
    subst h1
    unfold triggerReminders
    rw [if_pos rfl]
    show (if st.lastPostureStatus ≠ some "unknown" then (true, st.policy)
        else shouldNotify st.policy ["detection_failed"] now).1 = true
    rw [if_pos h2]
  · rintro (h1 | h1) <;> subst h1
    · unfold triggerReminders
      rw [if_neg (by decide : ¬("correct" = "unknown"))]
      rw [if_neg (by decide : ¬("correct" = "incorrect"))]
    · unfold triggerReminders
      rw [if_pos rfl]

/-- Witness for C6: a fresh transition into incorrect with threshold 1
emits; a correct cycle resets a running counter. -/
theorem trigger_reminders_transition_witness :
    (triggerReminders ⟨ReminderPolicy.init 5, 0, 1, some "correct"⟩
      "incorrect" ["head_forward"] 0).1 = true
    ∧ (triggerReminders ⟨ReminderPolicy.init 5, 3, 1, some "incorrect"⟩
      "correct" [] 0).2.consecutiveIncorrect = 0 :=
  ⟨(trigger_reminders_transition ⟨ReminderPolicy.init 5, 0, 1, some "correct"⟩
      "incorrect" ["head_forward"] 0).1 rfl (by decide) (by decide),
    (trigger_reminders_transition ⟨ReminderPolicy.init 5, 3, 1, some "incorrect"⟩
      "correct" [] 0).2.2 (Or.inl rfl)⟩

/-! ### EMA smoother theorems -/

/-- A constant stream is a fixed point of the threaded EMA once the previous
value equals the constant. -/
theorem emaRun_const (alpha v : ℝ) (m : ℕ) :
    emaRun alpha (some v) (List.replicate m v) = List.replicate m v := by
  induction m with
  | zero => rfl
  | succ k ih =>
      rw [List.replicate_succ]
      show ema (some v) v alpha ::
          emaRun alpha (some (ema (some v) v alpha)) (List.replicate k v)
        = v :: List.replicate k v
      have hv : ema (some v) v alpha = v := by
        show alpha * v + (1 - alpha) * v = v
        ring
      rw [hv, ih]

/-- C8: the EMA smoother satisfies
`smoothed = alpha * current + (1 - alpha) * previous`, passes the first
observation through unchanged, and a constant input `v` repeated `n ≥ 2`
times yields output `v` from the very first call onward. -/
theorem ema_first_and_fixed (alpha current prev v : ℝ) (n : ℕ) (_hn : 2 ≤ n) :
    ema (some prev) current alpha = alpha * current + (1 - alpha) * prev
    ∧ ema none current alpha = current
    ∧ emaRun alpha none (List.replicate n v) = List.replicate n v := by
  refine ⟨rfl, rfl, ?_⟩
  obtain ⟨m, rfl⟩ : ∃ m, n = m + 1 := ⟨n - 1, by omega⟩
  rw [List.replicate_succ]
  show ema none v alpha :: emaRun alpha (some (ema none v alpha)) (List.replicate m v)
    = v :: List.replicate m v
  rw [show ema none v alpha = v from rfl, emaRun_const]

/-- Witness for C8 at `alpha = 0.25`, first observation 2, constant stream
of two 3s. -/
theorem ema_first_and_fixed_witness :
    ema (some 5) 2 (0.25 : ℝ) = 0.25 * 2 + (1 - 0.25) * 5
    ∧ emaRun (0.25 : ℝ) none (List.replicate 2 3) = List.replicate 2 3 :=
  ⟨(ema_first_and_fixed 0.25 2 5 3 2 (by norm_num)).1,
    (ema_first_and_fixed 0.25 2 5 3 2 (by norm_num)).2.2⟩

/-! ### Classifier visibility-gate theorems -/

/-- C2 counterexample: with average shoulder visibility 0.10 (below 0.35)
but a face box whose head ratio 1.0 exceeds the 0.255 threshold,
`evaluate_frame` returns status `incorrect` with reason `head_too_close`,
not the claimed `unknown` with an empty reason set. -/
theorem low_visibility_face_overrides_counterexample :
    ((lowVisPose.image leftShoulderId).visibility +
        (lowVisPose.image rightShoulderId).visibility) / 2
      < testDetector.poseVisibilityThreshold
    ∧ (evaluateFrame testDetector bigFaceFrame).1.status = "incorrect"
    ∧ (evaluateFrame testDetector bigFaceFrame).1.reasons = ["head_too_close"] := by
  have hpose : evaluatePose testDetector (some lowVisPose)
      = (⟨"unknown", [], false⟩, testDetector) := by
    norm_num [evaluatePose, earSpanRatio, lowVisPose, testLandmarkLow, testDetector]
  refine ⟨by norm_num [lowVisPose, testLandmarkLow, testDetector], ?_, ?_⟩ <;>
  · simp only [evaluateFrame, bigFaceFrame, hpose, pickLargestFace]
    norm_num +decide [calculateHeadRatio, faceArea, testDetector]

/-- C2 as amended: when pose landmarks are detected with average shoulder
visibility below the threshold, the pose evaluation is `unknown` with no
pose reasons; the overall frame result is `unknown` with an empty reason set
provided no face box was detected and the ear-span too-close proxy does not
fire (a face box or the proxy can still force `incorrect`/`correct`). -/
theorem low_visibility_unknown (d : Detector) (f : FrameInput) (p : PoseInput)
    (hp : f.pose = some p)
    (hvis : ((p.image leftShoulderId).visibility +
        (p.image rightShoulderId).visibility) / 2 < d.poseVisibilityThreshold)
    (hface : f.faces = [])
    (hproxy : (evaluatePose d f.pose).1.headTooCloseProxy = false) :
    (evaluatePose d f.pose).1.poseStatus = "unknown"
    ∧ (evaluatePose d f.pose).1.poseReasons = []
    ∧ (evaluateFrame d f).1.status = "unknown"
    ∧ (evaluateFrame d f).1.reasons = [] := by
  have hpe : evaluatePose d f.pose
      = (⟨"unknown", [],
          match earSpanRatio p.image with
          | none => false
          | some s => if s ≥ d.earSpanTooCloseThreshold then true else false⟩, d) := by
    rw [hp]
    simp only [evaluatePose]
    rw [if_pos hvis]
  rw [hpe] at hproxy
  simp only at hproxy
  refine ⟨by rw [hpe], by rw [hpe], ?_, ?_⟩ <;>
  · simp only [evaluateFrame, hface, pickLargestFace, hpe, hproxy]
    norm_num +decide

/-- Witness for the amended C2: the low-visibility pose with no face box
yields the overall `unknown` verdict with no reasons. -/
theorem low_visibility_unknown_witness :
    (evaluateFrame testDetector noFaceFrame).1.status = "unknown"
    ∧ (evaluateFrame testDetector noFaceFrame).1.reasons = [] := by
  have h := low_visibility_unknown testDetector noFaceFrame lowVisPose rfl
    (by norm_num [lowVisPose, testLandmarkLow, testDetector]) rfl
    (by norm_num [evaluatePose, earSpanRatio, noFaceFrame, lowVisPose,
      testLandmarkLow, testDetector])
  exact ⟨h.2.2.1, h.2.2.2⟩

/-! ### Trunk-angle safety theorems -/

/-- C10: `_trunk_angle_degrees` returns `None` exactly when the
shoulder-to-hip vector norm is at most `1e-6`, and any returned value —
`degrees(arccos(...))` of a cosine clamped to `[-1, 1]` — lies in
`[0, 180]`. -/
theorem trunk_angle_total_safe (shoulderCenter hipCenter : ℝ × ℝ) :
    (trunkAngleDegrees shoulderCenter hipCenter = none ↔
      Real.sqrt ((shoulderCenter.1 - hipCenter.1) ^ 2 +
        (shoulderCenter.2 - hipCenter.2) ^ 2) ≤ 1e-6)
    ∧ ∀ v, trunkAngleDegrees shoulderCenter hipCenter = some v →
        0 ≤ v ∧ v ≤ 180 := by
  unfold trunkAngleDegrees
  by_cases h : Real.sqrt ((shoulderCenter.1 - hipCenter.1) ^ 2 +
      (shoulderCenter.2 - hipCenter.2) ^ 2) ≤ 1e-6
  · rw [if_pos h]
    exact ⟨⟨fun _ => h, fun _ => rfl⟩, fun v hv => absurd hv (by simp)⟩
  · rw [if_neg h]
    constructor
    · simp [h]
    · intro v hv
      rw [Option.some.injEq] at hv
      subst hv
      have h0 := Real.arccos_nonneg (max (-1) (min 1
        ((-(shoulderCenter.2 - hipCenter.2)) /
          Real.sqrt ((shoulderCenter.1 - hipCenter.1) ^ 2 +
            (shoulderCenter.2 - hipCenter.2) ^ 2))))
      have h1 := Real.arccos_le_pi (max (-1) (min 1
        ((-(shoulderCenter.2 - hipCenter.2)) /
          Real.sqrt ((shoulderCenter.1 - hipCenter.1) ^ 2 +
            (shoulderCenter.2 - hipCenter.2) ^ 2))))
      constructor
      · exact div_nonneg (mul_nonneg h0 (by norm_num)) Real.pi_pos.le
      · rw [div_le_iff₀ Real.pi_pos]
        nlinarith [Real.pi_pos]

/-- Witness for C10: the vertical unit vector gives norm 1 and trunk angle
exactly 0 degrees, inside `[0, 180]`. -/
theorem trunk_angle_total_safe_witness :
    trunkAngleDegrees ((0 : ℝ), (0 : ℝ)) ((0 : ℝ), (1 : ℝ)) = some 0
    ∧ (0 : ℝ) ≤ 0 ∧ (0 : ℝ) ≤ 180 := by
  have heval : trunkAngleDegrees ((0 : ℝ), (0 : ℝ)) ((0 : ℝ), (1 : ℝ)) = some 0 := by
    unfold trunkAngleDegrees
    norm_num [Real.sqrt_one, min_def, max_def, Real.arccos_one]
  exact ⟨heval, (trunk_angle_total_safe ((0 : ℝ), (0 : ℝ)) ((0 : ℝ), (1 : ℝ))).2 0 heval⟩

end SitAlarm
